import Mathlib

/-!
# Verification of the DBHub.io webui versioned artifact store

Shallow embedding of the core subsystem of `webui/main.go`: the versioned
artifact store with its derived result cache.  The HTTP handlers
(`uploadDataHandler`, `forkDBHandler`, `starToggleHandler`, `tableViewHandler`)
are embedded as pure functions from a request, a world (the metadata store,
blob store, cache-relevant state) and a fault-injection record to an outcome,
an event trace and an updated world.  Calls into the `common` package (which is
not part of this repository checkout) are modelled from the design document's
contracts; each such definition carries a doc comment starting
`Modelled from the spec:`.
-/

namespace DBHub

/-- A row of the blob locator / metadata table: one record per uploaded or
forked version, mapping (owner, folder, name, version) to its Minio bucket and
object id (spec §3 BlobRef, §4.3). -/
structure DBRow where
  owner : String
  folder : String
  dbname : String
  version : Nat
  bucket : String
  minioID : String
  deriving DecidableEq, Repr

/-- The external shared state the handlers act on: the relational metadata
store (locator rows, per-identity public policies, stars, user preferences)
and the Minio blob store contents.  SQLite-level table/column names and row
counts of stored blobs are carried as association lists so the table-view read
path can be modelled. -/
structure World where
  rows : List DBRow
  blobs : List (String × String)
  policies : List ((String × String × String) × Bool)
  stars : List (String × String × String × String)
  prefs : List (String × Nat)
  tablesOf : List ((String × String) × List String)
  columnsOf : List ((String × String × String) × List String)
  rowCounts : List ((String × String × String) × Nat)
  deriving DecidableEq, Repr

/-- The world with nothing stored. -/
def emptyWorld : World := ⟨[], [], [], [], [], [], [], []⟩

/-- Fault injection for the external collaborators (PostgreSQL, Minio,
memcached): each flag makes the corresponding call site return its error. -/
structure Faults where
  parseFormErr : Bool := false
  sanityFails : Bool := false
  userBucketErr : Bool := false
  checkIDErr : Bool := false
  storeFails : Bool := false
  addFails : Bool := false
  invalidateFails : Bool := false
  accessErr : Bool := false
  highestErr : Bool := false
  copyFails : Bool := false
  forkDBErr : Bool := false
  toggleErr : Bool := false
  starsQueryErr : Bool := false
  bucketIDErr : Bool := false
  cacheGetErr : Bool := false
  cacheSetFails : Bool := false
  tablesErr : Bool := false
  columnsErr : Bool := false
  rowCountErr : Bool := false
  readErr : Bool := false
  deriving DecidableEq, Repr

/-- No injected faults: every external service call succeeds. -/
def noFaults : Faults := {}

/-- The composite fingerprint used as result-cache key.
Modelled from the spec: `TableRowsCacheKey` lives in the `common` package,
absent from this checkout; spec §4.5 requires a pure deterministic function of
the canonical tuple of inputs ("or by hashing the canonical tuple"), so the
fingerprint is modelled as that canonical tuple.  The sort column, sort
direction and row offset reach it smashed into the `pfx` string by the caller
(src line 1277). -/
structure CacheKey where
  pfx : String
  viewer : String
  owner : String
  folder : String
  dbname : String
  version : Nat
  table : String
  maxRows : Nat
  deriving DecidableEq, Repr

/-- Modelled from the spec: `TableRowsCacheKey` (missing `common` package)
builds the fingerprint from its arguments, §4.5. -/
def tableRowsCacheKey (pfx viewer owner folder dbname : String) (version : Nat)
    (table : String) (maxRows : Nat) : CacheKey :=
  ⟨pfx, viewer, owner, folder, dbname, version, table, maxRows⟩

/-- The cache key exactly as `tableViewHandler` builds it (src lines
1277-1278): `fmt.Sprintf("tablejson/%s/%s/%d", sortCol, sortDir, rowOffset)`
is the first argument, the folder is fixed to "/". -/
def dataCacheKey (sortCol sortDir : String) (rowOffset : Nat)
    (viewer owner dbname : String) (version : Nat) (table : String)
    (maxRows : Nat) : CacheKey :=
  tableRowsCacheKey ("tablejson/" ++ sortCol ++ "/" ++ sortDir ++ "/" ++ Nat.repr rowOffset)
    viewer owner "/" dbname version table maxRows

/-- Observable effects of one handler execution, in program order. -/
inductive Event where
  | accessCheck (viewer owner folder dbname : String) (version : Nat) (ok : Bool)
  | cacheGet (key : CacheKey)
  | cacheSet (key : CacheKey)
  | invalidate (viewer owner folder dbname : String) (version : Nat)
  | blobCopy (srcBucket srcID destBucket destID : String)
  | blobStore (bucket minioID : String)
  | locatorInsert (owner folder dbname : String) (version : Nat)
  | digest
  | versionAlloc (owner folder dbname : String) (version : Nat)
  | starToggled (user owner folder dbname : String)
  | logged (msg : String)
  deriving DecidableEq, Repr

/-- The derived view computed from a stored SQLite blob for one table page.
The SQL engine itself is out of scope (spec §1), so the record set is
identified by the query that produced it plus the total row count. -/
structure RecordSet where
  table : String
  sortCol : String
  sortDir : String
  maxRows : Nat
  rowOffset : Nat
  totalRows : Nat
  deriving DecidableEq, Repr

/-- What a handler sends back over HTTP. `silent` is an early `return` with no
body written; `hang` models the id-generation loop never finding a free id. -/
inductive Outcome where
  | errorPage (status : Nat) (msg : String)
  | redirect (url : String)
  | json (rs : RecordSet)
  | starText (msg : String)
  | silent
  | hang
  deriving DecidableEq, Repr

/-- Modelled from the spec: `HighestDBVersion` lives in the missing `common`
package; §4.2 says it computes the highest existing version for the
(owner, folder, name) identity, or 0 if the identity does not yet exist.  The
argument order (owner, name, folder) mirrors the Go call sites. -/
def highestDBVersion (rows : List DBRow) (owner dbname folder : String) : Nat :=
  (rows.filter fun r =>
      r.owner == owner && r.dbname == dbname && r.folder == folder).foldr
    (fun r acc => max r.version acc) 0

/-- The identity's current public flag (spec §3 AccessPolicy); false when the
identity has no recorded policy. -/
def dbPublic (w : World) (owner folder dbname : String) : Bool :=
  match w.policies.lookup (owner, folder, dbname) with
  | some b => b
  | none => false

/-- Modelled from the spec: the Access Guard §4.4 (`CheckUserDBVAccess` is in
the missing `common` package).  `viewer == owner` is always allowed; any other
viewer — the anonymous viewer "" included — is allowed iff the identity's
public flag is set.  The version argument does not take part in the rule. -/
def canRead (w : World) (viewer owner folder dbname : String) (_version : Nat) : Bool :=
  viewer == owner || dbPublic w owner folder dbname

/-- Modelled from the spec: `MinioUserBucket` (missing `common` package);
§6 fixes the convention of one storage bucket per owner. -/
def minioUserBucket (owner : String) : String :=
  owner ++ ".bucket"

/-- An id is available iff no blob of that name is in the owner's bucket. -/
def checkMinioIDAvail (w : World) (bucket minioID : String) : Bool :=
  !(w.blobs.contains (bucket, minioID))

/-- The id-generation loop of `uploadDataHandler` (src lines 1538-1547):
repeatedly draw a random 8-character token, append ".db", and test
availability.  The randomness is modelled by the request-supplied candidate
list; `none` models the loop spinning forever without finding a free id. -/
def allocMinioID (w : World) (bucket : String) : List String → Option String
  | [] => none
  | c :: rest =>
    let candidate := c ++ ".db"
    if checkMinioIDAvail w bucket candidate then some candidate
    else allocMinioID w bucket rest

/-- The locator row matching (owner, folder, name, version), if any. -/
def findRow (w : World) (owner folder dbname : String) (version : Nat) : Option DBRow :=
  w.rows.find? fun r =>
    r.owner == owner && r.folder == folder && r.dbname == dbname && r.version == version

/-- Modelled from the spec: `MinioBucketID` (missing `common` package)
"verifies the given database exists and is ok to be downloaded" for the given
viewer (src comments at lines 375 and 1251), i.e. it consults the Access
Guard, and resolves the version to its (bucket, id); a version that does not
exist resolves to an empty id (src line 1259 checks `id == ""`). -/
def minioBucketID (w : World) (owner dbname : String) (version : Nat)
    (viewer : String) : Except Unit (String × String) :=
  if !canRead w viewer owner "/" dbname version then .error ()
  else
    match findRow w owner "/" dbname version with
    | some r => .ok (r.bucket, r.minioID)
    | none => .ok (minioUserBucket owner, "")

/-- Modelled from the spec: `ValidateDB` is form-validation glue in the
missing `common` package (out of scope per §1); modelled as requiring a
nonempty name. -/
def validDBName (s : String) : Bool := !s.isEmpty

/-- An upload request as `uploadDataHandler` sees it after HTTP decoding:
`sessionUser` is the login session (none = no valid session), `pubField` the
parsed "public" form field (none = unparsable), `file` the uploaded file's
name and byte length (none = missing), `idCandidates` the stream of random
tokens the id generator will draw. -/
structure UploadReq where
  sessionUser : Option String
  pubField : Option Bool
  descrip : String
  readme : String
  file : Option (String × Nat)
  idCandidates : List String
  deriving DecidableEq, Repr

/-- The next version number assigned by `uploadDataHandler` (src lines
1520-1528): highest existing version plus one when the database already
exists, otherwise 1. -/
def nextVer (w : World) (owner dbName : String) : Nat :=
  let highVer := highestDBVersion w.rows owner dbName "/"
  if highVer > 0 then highVer + 1 else 1

/-- Effect of `StoreMinioObject` on the blob store. -/
def storeBlob (w : World) (bucket minioID : String) : World :=
  { w with blobs := (bucket, minioID) :: w.blobs }

/-- Modelled from the spec: `AddDatabase` (missing `common` package) commits
the new locator row for the freshly stored blob and records the identity's
public flag (§4.3 put). -/
def addDatabase (w : World) (owner folder dbName : String) (version : Nat)
    (pub : Bool) (bucket minioID : String) : World :=
  { w with
    rows := ⟨owner, folder, dbName, version, bucket, minioID⟩ :: w.rows,
    policies := ((owner, folder, dbName), pub) :: w.policies }

/-- The validation prefix of `uploadDataHandler` (src lines 1408-1515):
session check, form parsing, "public" field, description length, file
presence, database-name validation, the zero-length check and the SQLite
sanity check.  No external state is touched and no event is emitted before
all of these pass; on failure the handler sends the error page carried in the
`Except`. -/
def uploadValidate (req : UploadReq) (f : Faults) :
    Except Outcome (String × Bool × String) :=
  match req.sessionUser with
  | none => .error (.errorPage 401 "You need to be logged in")
  | some loggedInUser =>
    if f.parseFormErr then .error (.errorPage 500 "ParseForm() error")
    else match req.pubField with
    | none => .error (.errorPage 400 "Public value incorrect")
    | some pub =>
      if req.descrip.length > 80 then
        .error (.errorPage 400 "Description line needs to be 80 characters or less")
      else match req.file with
      | none => .error (.errorPage 500 "Database file missing from upload data?")
      | some (dbName, fileLen) =>
        if !validDBName dbName then .error (.errorPage 400 "Invalid database name")
        else if fileLen == 0 then .error (.errorPage 400 "Database file is 0 length?")
        else if f.sanityFails then .error (.errorPage 500 "Sanity check failed")
        else .ok (loggedInUser, pub, dbName)

/-- The commit suffix of `uploadDataHandler` (src lines 1517-1577): sha256
digest, version computation, bucket lookup, id-generation loop, blob store,
locator insert (`AddDatabase`), cache invalidation with version 0 and the
final redirect.  On invalidation failure the Go code logs and `return`s
(lines 1568-1573), sending nothing: outcome `silent`. -/
def uploadCommit (loggedInUser : String) (pub : Bool) (dbName : String)
    (cands : List String) (w : World) (f : Faults) :
    Outcome × List Event × World :=
  let newVer := nextVer w loggedInUser dbName
  if f.userBucketErr then
    (.errorPage 500 "Database query failure",
      [.digest, .versionAlloc loggedInUser "/" dbName newVer], w)
  else if f.checkIDErr then
    (.errorPage 500 "Database query failure",
      [.digest, .versionAlloc loggedInUser "/" dbName newVer], w)
  else
    match allocMinioID w (minioUserBucket loggedInUser) cands with
    | none =>
      (.hang, [.digest, .versionAlloc loggedInUser "/" dbName newVer], w)
    | some minioID =>
      if f.storeFails then
        (.errorPage 500 "Storing database file failed",
          [.digest, .versionAlloc loggedInUser "/" dbName newVer], w)
      else if f.addFails then
        (.errorPage 500 "Adding database details to PostgreSQL failed",
          [.digest, .versionAlloc loggedInUser "/" dbName newVer,
            .blobStore (minioUserBucket loggedInUser) minioID],
          storeBlob w (minioUserBucket loggedInUser) minioID)
      else if f.invalidateFails then
        (.silent,
          [.digest, .versionAlloc loggedInUser "/" dbName newVer,
            .blobStore (minioUserBucket loggedInUser) minioID,
            .locatorInsert loggedInUser "/" dbName newVer,
            .invalidate loggedInUser loggedInUser "/" dbName 0,
            .logged "Error when invalidating memcache entries"],
          addDatabase (storeBlob w (minioUserBucket loggedInUser) minioID)
            loggedInUser "/" dbName newVer pub (minioUserBucket loggedInUser) minioID)
      else
        (.redirect ("/" ++ loggedInUser ++ "/" ++ dbName),
          [.digest, .versionAlloc loggedInUser "/" dbName newVer,
            .blobStore (minioUserBucket loggedInUser) minioID,
            .locatorInsert loggedInUser "/" dbName newVer,
            .invalidate loggedInUser loggedInUser "/" dbName 0],
          addDatabase (storeBlob w (minioUserBucket loggedInUser) minioID)
            loggedInUser "/" dbName newVer pub (minioUserBucket loggedInUser) minioID)

/-- Embedding of `uploadDataHandler` (src lines 1408-1577): the validation
prefix followed by the commit suffix. -/
def uploadDataHandler (req : UploadReq) (w : World) (f : Faults) :
    Outcome × List Event × World :=
  match uploadValidate req f with
  | .error o => (o, [], w)
  | .ok (loggedInUser, pub, dbName) =>
    uploadCommit loggedInUser pub dbName req.idCandidates w f

/-- If no row of the metadata store matches the identity, its highest version
is 0. -/
theorem highestDBVersion_eq_zero (rows : List DBRow) (o n fo : String)
    (h : ∀ r ∈ rows, ¬(r.owner = o ∧ r.dbname = n ∧ r.folder = fo)) :
    highestDBVersion rows o n fo = 0 := by
  unfold highestDBVersion
  have hf : rows.filter
      (fun r => r.owner == o && r.dbname == n && r.folder == fo) = [] := by
    rw [List.filter_eq_nil_iff]
    intro r hr
    have := h r hr
    simp only [Bool.and_eq_true, beq_iff_eq]
    tauto
  rw [hf]
  rfl

/-- Any locator row recorded by the commit phase of an upload names the
uploader, the root folder, the uploaded name, and version `nextVer` of the
pre-state world. -/
theorem uploadCommit_locatorInsert (lu : String) (pub : Bool) (dbName : String)
    (cands : List String) (w : World) (f : Faults) (o fo n : String) (v : Nat)
    (h : Event.locatorInsert o fo n v ∈ (uploadCommit lu pub dbName cands w f).2.1) :
    o = lu ∧ fo = "/" ∧ n = dbName ∧ v = nextVer w lu dbName := by
  simp only [uploadCommit] at h
  repeat' split at h
  all_goals
    simp only [List.mem_cons, List.not_mem_nil, Event.locatorInsert.injEq,
      reduceCtorEq, or_false, false_or, or_self] at h
  all_goals first
  | exact h.elim
  | exact h

/-- C1: every successful upload records a locator row whose version is the
identity's highest existing version plus one, and version 1 when the identity
does not yet exist (src lines 1520-1528 with `HighestDBVersion` per spec
§4.2). -/
theorem upload_version_highest_plus_one
    (req : UploadReq) (w : World) (f : Faults) (o fo n : String) (v : Nat)
    (h : Event.locatorInsert o fo n v ∈ (uploadDataHandler req w f).2.1) :
    v = highestDBVersion w.rows o n fo + 1 ∧
      ((∀ r ∈ w.rows, ¬(r.owner = o ∧ r.dbname = n ∧ r.folder = fo)) → v = 1) := by
  simp only [uploadDataHandler] at h
  split at h
  · exact absurd h (by simp)
  · obtain ⟨ho, hfo, hn, hv⟩ := uploadCommit_locatorInsert _ _ _ _ _ _ _ _ _ _ h
    subst ho; subst hfo; subst hn
    simp only [nextVer] at hv
    subst hv
    constructor
    · split <;> omega
    · intro hnone
      have h0 := highestDBVersion_eq_zero w.rows o n "/" hnone
      rw [h0]
      rfl

/-- Witness for C1: uploading "test.db" as alice into the empty world records
version 1 = 0 + 1. -/
theorem upload_version_highest_plus_one_witness :
    Event.locatorInsert "alice" "/" "test.db" 1 ∈
      (uploadDataHandler ⟨some "alice", some true, "", "", some ("test.db", 5), ["abcd"]⟩
        emptyWorld noFaults).2.1 ∧
    1 = highestDBVersion emptyWorld.rows "alice" "test.db" "/" + 1 := by
  have hm : Event.locatorInsert "alice" "/" "test.db" 1 ∈
      (uploadDataHandler ⟨some "alice", some true, "", "", some ("test.db", 5), ["abcd"]⟩
        emptyWorld noFaults).2.1 := by decide
  exact ⟨hm, (upload_version_highest_plus_one _ _ _ _ _ _ _ hm).1⟩

/-- C3: the Access Guard always allows the owner regardless of the public
flag, and allows any other viewer (the anonymous viewer "" included) exactly
when the identity's current public flag is true (spec §4.4, consumed via
`CheckUserDBVAccess` at src line 499). -/
theorem canRead_owner_and_public
    (w : World) (viewer owner folder dbname : String) (version : Nat) :
    (viewer = owner → canRead w viewer owner folder dbname version = true) ∧
      (viewer ≠ owner →
        (canRead w viewer owner folder dbname version = true ↔
          dbPublic w owner folder dbname = true)) := by
  constructor
  · intro h
    subst h
    simp [canRead]
  · intro h
    simp [canRead, h]

/-- The world used by the C3 witness: alice's public sales.db. -/
def c3World : World :=
  { emptyWorld with policies := [(("alice", "/", "sales.db"), true)] }

/-- Witness for C3 at a concrete world: alice always reads her own database;
bob reads it exactly when it is public. -/
theorem canRead_owner_and_public_witness :
    canRead c3World "alice" "alice" "/" "sales.db" 1 = true ∧
      (canRead c3World "bob" "alice" "/" "sales.db" 1 = true ↔
        dbPublic c3World "alice" "/" "sales.db" = true) :=
  ⟨(canRead_owner_and_public c3World "alice" "alice" "/" "sales.db" 1).1 rfl,
    (canRead_owner_and_public c3World "bob" "alice" "/" "sales.db" 1).2 (by decide)⟩

/-- C10: an upload whose database file is zero bytes long fails with a client
error (src lines 1485-1490) before any digest is computed, any blob stored or
any version allocated: the event trace is empty and the world — the owner's
version set and the blob store — is unchanged. -/
theorem upload_zero_length_rejected
    (req : UploadReq) (w : World) (f : Faults) (u dbName : String) (pub : Bool)
    (hs : req.sessionUser = some u) (hpf : f.parseFormErr = false)
    (hp : req.pubField = some pub) (hd : req.descrip.length ≤ 80)
    (hf : req.file = some (dbName, 0)) (hn : validDBName dbName = true) :
    (uploadDataHandler req w f).1 = .errorPage 400 "Database file is 0 length?" ∧
      (uploadDataHandler req w f).2.1 = [] ∧
      (uploadDataHandler req w f).2.2 = w := by
  have hd' : ¬(req.descrip.length > 80) := by omega
  simp [uploadDataHandler, uploadValidate, hs, hpf, hp, hd', hf, hn]

/-- Witness for C10: a concrete zero-byte upload by alice is rejected with
the 0-length error page and leaves the empty world empty. -/
theorem upload_zero_length_rejected_witness :
    (uploadDataHandler ⟨some "alice", some true, "", "", some ("test.db", 0), ["abcd"]⟩
        emptyWorld noFaults).1 = .errorPage 400 "Database file is 0 length?" ∧
      (uploadDataHandler ⟨some "alice", some true, "", "", some ("test.db", 0), ["abcd"]⟩
          emptyWorld noFaults).2.1 = [] ∧
      (uploadDataHandler ⟨some "alice", some true, "", "", some ("test.db", 0), ["abcd"]⟩
          emptyWorld noFaults).2.2 = emptyWorld :=
  upload_zero_length_rejected _ emptyWorld noFaults "alice" "test.db" true
    rfl rfl rfl (by decide) rfl (by decide)

/-- Per-task progress of the two-step version allocation performed by
`uploadDataHandler`: not yet read, read the highest version (a stale local
copy), or committed. -/
inductive TaskState where
  | idle
  | readDone (highVer : Nat)
  | committed
  deriving DecidableEq, Repr

/-- Shared state for N concurrent uploads to one identity: the versions
committed so far, and each task's local state.  The read step is the
`HighestDBVersion` call (src line 1521), the write step is the `AddDatabase`
call (src line 1557); between them each handler computes its new version from
its stale local copy (src lines 1522-1528) with no serialization. -/
structure AllocState where
  committed : List Nat
  tasks : List TaskState
  deriving DecidableEq, Repr

/-- Highest committed version, 0 when none: what `HighestDBVersion` returns
for the identity. -/
def maxVersion (l : List Nat) : Nat := l.foldr max 0

/-- One scheduler step: task `i` performs its next pending step — the
metadata read if it has not read yet, otherwise the commit of
`if highVer > 0 then highVer + 1 else 1` exactly as src lines 1522-1528
compute it. -/
def allocStep (s : AllocState) (i : Nat) : AllocState :=
  match s.tasks.get? i with
  | some .idle =>
    { s with tasks := s.tasks.set i (.readDone (maxVersion s.committed)) }
  | some (.readDone h) =>
    { committed := (if h > 0 then h + 1 else 1) :: s.committed,
      tasks := s.tasks.set i .committed }
  | _ => s

/-- Run a schedule (an interleaving of the tasks' steps) for N concurrent
uploads to the same identity, starting from no committed versions. -/
def allocRun (n : Nat) (sched : List Nat) : AllocState :=
  sched.foldl allocStep { committed := [], tasks := List.replicate n .idle }

/-- C2 fails on the code: under the interleaving read₀, read₁, write₀,
write₁ both concurrent uploads read highest = 0 and both commit version 1 —
a duplicate, so the resulting versions are not {1, 2}.  A serialized
schedule (read₀, write₀, read₁, write₁) does produce exactly {1, 2}, showing
the two-step pattern itself is the cause. -/
theorem concurrent_uploads_duplicate_version :
    ((allocRun 2 [0, 1, 0, 1]).committed = [1, 1] ∧
        ¬(allocRun 2 [0, 1, 0, 1]).committed.Nodup) ∧
      (allocRun 2 [0, 0, 1, 1]).committed = [2, 1] := by
  decide

/-- A fork request as `forkDBHandler` sees it after URL decoding (src line
465): source owner, database name, source version, the login session, and the
object id `MinioObjCopy` will pick in the destination bucket (modelling its
internal id generation). -/
structure ForkReq where
  dbOwner : String
  dbName : String
  dbVer : Nat
  sessionUser : Option String
  destIDCand : String
  deriving DecidableEq, Repr

/-- Modelled from the spec: `ForkDatabase` (missing `common` package) commits
the destination locator row for the copied blob (§4.3 fork): the version is
`nextVersion(destOwner, "/", srcName)` per §4.2, and the destination identity
carries the source identity's public flag.  Argument order mirrors the Go
call `ForkDatabase(dbOwner, "/", dbName, dbVer, loggedInUser, "/",
destMinioID)`. -/
def forkDatabase (w : World) (srcOwner srcFolder srcName : String)
    (_srcVer : Nat) (destOwner destFolder destMinioID : String) : World :=
  { w with
    rows := ⟨destOwner, destFolder, srcName,
      highestDBVersion w.rows destOwner srcName destFolder + 1,
      minioUserBucket destOwner, destMinioID⟩ :: w.rows,
    policies := ((destOwner, destFolder, srcName),
      dbPublic w srcOwner srcFolder srcName) :: w.policies }

/-- The validation prefix of `forkDBHandler` (src lines 460-525): version
presence check, session check, source access check (`CheckUserDBVAccess`,
line 499), same-owner rejection (line 510) and the destination
name-collision check via `HighestDBVersion` (line 516).  On failure the
handler sends the carried error page after the carried (possibly empty)
event trace; on success it proceeds with the logged-in user. -/
def forkValidate (req : ForkReq) (w : World) (f : Faults) :
    Except (Outcome × List Event) String :=
  if req.dbVer == 0 then
    .error (.errorPage 400 "No database version number given", [])
  else match req.sessionUser with
  | none => .error (.errorPage 400 "To fork a database, you need to be logged in", [])
  | some loggedInUser =>
    if f.accessErr then .error (.errorPage 500 "database access check failed", [])
    else if !canRead w loggedInUser req.dbOwner "/" req.dbName req.dbVer then
      .error (.errorPage 400 "You don't have access to the requested database version",
        [.accessCheck loggedInUser req.dbOwner "/" req.dbName req.dbVer false])
    else if loggedInUser == req.dbOwner then
      .error (.errorPage 400 "Forking your own database in-place doesn't make sense",
        [.accessCheck loggedInUser req.dbOwner "/" req.dbName req.dbVer true])
    else if f.highestErr then
      .error (.errorPage 500 "highest version lookup failed",
        [.accessCheck loggedInUser req.dbOwner "/" req.dbName req.dbVer true])
    else if highestDBVersion w.rows loggedInUser req.dbName "/" != 0 then
      .error (.errorPage 400 "You already have a database of this name",
        [.accessCheck loggedInUser req.dbOwner "/" req.dbName req.dbVer true])
    else .ok loggedInUser

/-- The commit suffix of `forkDBHandler` (src lines 527-568): source bucket
resolution (`MinioBucketID`), destination bucket, blob copy (`MinioObjCopy`),
metadata commit (`ForkDatabase`), cache invalidation with version 0 for the
forked-from database (line 556) and the final redirect.  On invalidation
failure the Go code logs and `return`s (lines 557-561), sending nothing:
outcome `silent`. -/
def forkCommit (loggedInUser : String) (req : ForkReq) (w : World) (f : Faults) :
    Outcome × List Event × World :=
  if f.bucketIDErr then
    (.errorPage 500 "source bucket lookup failed",
      [.accessCheck loggedInUser req.dbOwner "/" req.dbName req.dbVer true], w)
  else match minioBucketID w req.dbOwner req.dbName req.dbVer loggedInUser with
  | .error _ =>
    (.errorPage 500 "source bucket lookup failed",
      [.accessCheck loggedInUser req.dbOwner "/" req.dbName req.dbVer true], w)
  | .ok (srcBucket, srcID) =>
    if f.userBucketErr then
      (.errorPage 500 "destination bucket lookup failed",
        [.accessCheck loggedInUser req.dbOwner "/" req.dbName req.dbVer true], w)
    else if f.copyFails then
      (.errorPage 500 "blob copy failed",
        [.accessCheck loggedInUser req.dbOwner "/" req.dbName req.dbVer true], w)
    else if f.forkDBErr then
      (.errorPage 500 "Adding forked database details to PostgreSQL failed",
        [.accessCheck loggedInUser req.dbOwner "/" req.dbName req.dbVer true,
          .blobCopy srcBucket srcID (minioUserBucket loggedInUser) req.destIDCand],
        storeBlob w (minioUserBucket loggedInUser) req.destIDCand)
    else if f.invalidateFails then
      (.silent,
        [.accessCheck loggedInUser req.dbOwner "/" req.dbName req.dbVer true,
          .blobCopy srcBucket srcID (minioUserBucket loggedInUser) req.destIDCand,
          .locatorInsert loggedInUser "/" req.dbName
            (highestDBVersion w.rows loggedInUser req.dbName "/" + 1),
          .invalidate loggedInUser req.dbOwner "/" req.dbName 0,
          .logged "Error when invalidating memcache entries"],
        forkDatabase (storeBlob w (minioUserBucket loggedInUser) req.destIDCand)
          req.dbOwner "/" req.dbName req.dbVer loggedInUser "/" req.destIDCand)
    else
      (.redirect ("/" ++ loggedInUser ++ "/" ++ req.dbName),
        [.accessCheck loggedInUser req.dbOwner "/" req.dbName req.dbVer true,
          .blobCopy srcBucket srcID (minioUserBucket loggedInUser) req.destIDCand,
          .locatorInsert loggedInUser "/" req.dbName
            (highestDBVersion w.rows loggedInUser req.dbName "/" + 1),
          .invalidate loggedInUser req.dbOwner "/" req.dbName 0],
        forkDatabase (storeBlob w (minioUserBucket loggedInUser) req.destIDCand)
          req.dbOwner "/" req.dbName req.dbVer loggedInUser "/" req.destIDCand)

/-- Embedding of `forkDBHandler` (src lines 460-568): the validation prefix
followed by the commit suffix. -/
def forkDBHandler (req : ForkReq) (w : World) (f : Faults) :
    Outcome × List Event × World :=
  match forkValidate req w f with
  | .error (o, tr) => (o, tr, w)
  | .ok loggedInUser => forkCommit loggedInUser req w f

/-- A star-toggle request as `starToggleHandler` sees it (src line 959). -/
structure StarReq where
  dbOwner : String
  dbName : String
  sessionUser : Option String
  deriving DecidableEq, Repr

/-- Modelled from the spec: `ToggleDBStar` (missing `common` package) flips
whether the logged-in user stars the database. -/
def toggleStar (w : World) (u o fo n : String) : World :=
  if w.stars.contains (u, o, fo, n) then
    { w with stars := w.stars.filter fun s => !(s == (u, o, fo, n)) }
  else { w with stars := (u, o, fo, n) :: w.stars }

/-- Modelled from the spec: `DBStars` (missing `common` package) counts the
stars of the database. -/
def countStars (w : World) (o n : String) : Nat :=
  (w.stars.filter fun s => s.2.1 == o && s.2.2.2 == n).length

/-- Embedding of `starToggleHandler` (src lines 957-1008): session check
(failure prints "-1"), `ToggleDBStar`, cache invalidation with version 0 for
the starred database (line 994), and the updated star count.  On invalidation
failure the Go code logs and `return`s (lines 995-999), sending nothing:
outcome `silent`. -/
def starToggleHandler (req : StarReq) (w : World) (f : Faults) :
    Outcome × List Event × World :=
  match req.sessionUser with
  | none => (.starText "-1", [], w)
  | some loggedInUser =>
    if f.toggleErr then (.starText "-1", [], w)
    else if f.invalidateFails then
      (.silent,
        [.starToggled loggedInUser req.dbOwner "/" req.dbName,
          .invalidate loggedInUser req.dbOwner "/" req.dbName 0,
          .logged "Error when invalidating memcache entries"],
        toggleStar w loggedInUser req.dbOwner "/" req.dbName)
    else if f.starsQueryErr then
      (.starText "-1",
        [.starToggled loggedInUser req.dbOwner "/" req.dbName,
          .invalidate loggedInUser req.dbOwner "/" req.dbName 0],
        toggleStar w loggedInUser req.dbOwner "/" req.dbName)
    else
      (.starText (Nat.repr (countStars
          (toggleStar w loggedInUser req.dbOwner "/" req.dbName) req.dbOwner req.dbName)),
        [.starToggled loggedInUser req.dbOwner "/" req.dbName,
          .invalidate loggedInUser req.dbOwner "/" req.dbName 0],
        toggleStar w loggedInUser req.dbOwner "/" req.dbName)

/-- C8: a fork whose destination owner (the logged-in user) equals the source
owner fails with the same-owner client error (src lines 509-513); no blob is
copied, no version and no locator row is created for either owner: the world
is unchanged. -/
theorem fork_same_owner_rejected
    (req : ForkReq) (w : World) (f : Faults) (u : String)
    (hs : req.sessionUser = some u) (hv : req.dbVer ≠ 0)
    (hacc : f.accessErr = false) (hsame : u = req.dbOwner) :
    (forkDBHandler req w f).1 =
        .errorPage 400 "Forking your own database in-place doesn't make sense" ∧
      (forkDBHandler req w f).2.2 = w ∧
      (∀ a b c d, Event.blobCopy a b c d ∉ (forkDBHandler req w f).2.1) ∧
      (∀ o' fo' n' v', Event.locatorInsert o' fo' n' v' ∉ (forkDBHandler req w f).2.1) := by
  subst hsame
  simp [forkDBHandler, forkValidate, hs, hv, hacc, canRead]

/-- Witness for C8: alice forking her own db in place is rejected and the
empty world stays empty. -/
theorem fork_same_owner_rejected_witness :
    (forkDBHandler ⟨"alice", "db", 1, some "alice", "xyz"⟩ emptyWorld noFaults).1 =
        .errorPage 400 "Forking your own database in-place doesn't make sense" ∧
      (forkDBHandler ⟨"alice", "db", 1, some "alice", "xyz"⟩ emptyWorld noFaults).2.2 =
        emptyWorld ∧
      (∀ a b c d, Event.blobCopy a b c d ∉
        (forkDBHandler ⟨"alice", "db", 1, some "alice", "xyz"⟩ emptyWorld noFaults).2.1) ∧
      (∀ o' fo' n' v', Event.locatorInsert o' fo' n' v' ∉
        (forkDBHandler ⟨"alice", "db", 1, some "alice", "xyz"⟩ emptyWorld noFaults).2.1) :=
  fork_same_owner_rejected _ _ _ "alice" rfl (by decide) rfl rfl

/-- A fork request that passes validation has a logged-in session user who
owns no version of the requested name. -/
theorem forkValidate_ok (req : ForkReq) (w : World) (f : Faults) (lu : String)
    (h : forkValidate req w f = .ok lu) :
    req.sessionUser = some lu ∧
      highestDBVersion w.rows lu req.dbName "/" = 0 := by
  simp only [forkValidate] at h
  repeat' split at h
  all_goals simp_all

/-- A fork validation failure carries an error page, never a redirect. -/
theorem forkValidate_error (req : ForkReq) (w : World) (f : Faults)
    (o : Outcome) (tr : List Event)
    (h : forkValidate req w f = .error (o, tr)) :
    ∃ s m, o = .errorPage s m := by
  simp only [forkValidate] at h
  repeat' split at h
  all_goals
    simp only [Except.error.injEq, Except.ok.injEq, Prod.mk.injEq, reduceCtorEq] at h
  all_goals exact ⟨_, _, h.1.symm⟩

/-- C9: a fork whose destination owner already has any version of the
requested name fails with the name-collision client error before any blob is
copied (src lines 515-525), leaving the world unchanged; and a fork succeeds
(redirects) only if the destination owner has no version of that name at
all. -/
theorem fork_name_collision_guard :
    (∀ (req : ForkReq) (w : World) (f : Faults) (u : String),
      req.sessionUser = some u → req.dbVer ≠ 0 → f.accessErr = false →
      f.highestErr = false → u ≠ req.dbOwner →
      canRead w u req.dbOwner "/" req.dbName req.dbVer = true →
      highestDBVersion w.rows u req.dbName "/" ≠ 0 →
      (forkDBHandler req w f).1 =
          .errorPage 400 "You already have a database of this name" ∧
        (forkDBHandler req w f).2.2 = w ∧
        (∀ a b c d, Event.blobCopy a b c d ∉ (forkDBHandler req w f).2.1)) ∧
    (∀ (req : ForkReq) (w : World) (f : Faults) (u url : String),
      req.sessionUser = some u →
      (forkDBHandler req w f).1 = .redirect url →
      highestDBVersion w.rows u req.dbName "/" = 0) := by
  constructor
  · intro req w f u hs hv hacc hhi hdiff hcr hcoll
    simp [forkDBHandler, forkValidate, hs, hv, hacc, hhi, hdiff, hcr, hcoll]
  · intro req w f u url hs hout
    rcases hval : forkValidate req w f with ⟨o2, tr2⟩ | lu
    · simp only [forkDBHandler, hval] at hout
      obtain ⟨s, m, ho⟩ := forkValidate_error req w f o2 tr2 hval
      rw [ho] at hout
      exact absurd hout (by simp)
    · obtain ⟨hsess, hzero⟩ := forkValidate_ok req w f lu hval
      have hul : u = lu := by
        have h2 := hs.symm.trans hsess
        injection h2
      subst hul
      exact hzero

/-- The world used by the C9 witness: bob already has "db" version 1, and
alice's "db" is public with one stored version. -/
def c9World : World :=
  { emptyWorld with
    rows := [⟨"bob", "/", "db", 1, "bob.bucket", "aaa.db"⟩,
             ⟨"alice", "/", "db", 1, "alice.bucket", "src.db"⟩],
    blobs := [("bob.bucket", "aaa.db"), ("alice.bucket", "src.db")],
    policies := [(("alice", "/", "db"), true), (("bob", "/", "db"), true)] }

/-- The world used by the C9 witness success branch: only alice's public
"db". -/
def c9WorldFree : World :=
  { emptyWorld with
    rows := [⟨"alice", "/", "db", 1, "alice.bucket", "src.db"⟩],
    blobs := [("alice.bucket", "src.db")],
    policies := [(("alice", "/", "db"), true)] }

/-- Witness for C9: bob forking alice's "db" while already owning a "db" is
rejected with the name-collision page and copies nothing; and in a world
where bob has no "db" the same fork succeeds, with bob's highest version for
"db" being 0 as the theorem requires. -/
theorem fork_name_collision_guard_witness :
    ((forkDBHandler ⟨"alice", "db", 1, some "bob", "xyz"⟩ c9World noFaults).1 =
          .errorPage 400 "You already have a database of this name" ∧
        (forkDBHandler ⟨"alice", "db", 1, some "bob", "xyz"⟩ c9World noFaults).2.2 =
          c9World ∧
        (∀ a b c d, Event.blobCopy a b c d ∉
          (forkDBHandler ⟨"alice", "db", 1, some "bob", "xyz"⟩ c9World noFaults).2.1)) ∧
      highestDBVersion c9WorldFree.rows "bob" "db" "/" = 0 :=
  ⟨fork_name_collision_guard.1 ⟨"alice", "db", 1, some "bob", "xyz"⟩ c9World noFaults "bob"
      rfl (by decide) rfl rfl (by decide) (by decide) (by decide),
    fork_name_collision_guard.2 ⟨"alice", "db", 1, some "bob", "xyz"⟩ c9WorldFree noFaults
      "bob" "/bob/db" rfl (by decide)⟩

/-- Is the event a locator-row insertion (a new version being recorded)? -/
def isLocatorInsert : Event → Bool
  | .locatorInsert _ _ _ _ => true
  | _ => false

/-- Is the event a star toggle? -/
def isStarToggled : Event → Bool
  | .starToggled _ _ _ _ => true
  | _ => false

/-- Is the event a cache invalidation for the given identity with the
version-0 wildcard? -/
def isInvalidateZero (o fo n : String) : Event → Bool
  | .invalidate _ o' fo' n' ver => o' == o && fo' == fo && n' == n && ver == 0
  | _ => false

/-- The suffix of a trace strictly after the first event satisfying `p`. -/
def suffixAfter (p : Event → Bool) : List Event → List Event
  | [] => []
  | e :: rest => if p e then rest else suffixAfter p rest

/-- A fork validation failure's trace records no locator insertion. -/
theorem forkValidate_error_no_insert (req : ForkReq) (w : World) (f : Faults)
    (o : Outcome) (tr : List Event)
    (h : forkValidate req w f = .error (o, tr)) :
    ∀ o' fo' n' v', Event.locatorInsert o' fo' n' v' ∉ tr := by
  simp only [forkValidate] at h
  repeat' split at h
  all_goals
    simp only [Except.error.injEq, Except.ok.injEq, Prod.mk.injEq, reduceCtorEq] at h
  all_goals
    intro o' fo' n' v'
    rw [← h.2]
    simp

/-- After the upload commit phase records a locator row, a version-0 cache
invalidation for the uploaded identity follows in the same trace. -/
theorem uploadCommit_insert_invalidate (lu : String) (pub : Bool) (dbName : String)
    (cands : List String) (w : World) (f : Faults) (o fo n : String) (v : Nat)
    (h : Event.locatorInsert o fo n v ∈ (uploadCommit lu pub dbName cands w f).2.1) :
    ((suffixAfter isLocatorInsert (uploadCommit lu pub dbName cands w f).2.1).any
      (isInvalidateZero o fo n)) = true := by
  obtain ⟨ho, hfo, hn, hv⟩ := uploadCommit_locatorInsert lu pub dbName cands w f o fo n v h
  subst ho; subst hfo; subst hn
  by_cases hub : f.userBucketErr
  · simp [uploadCommit, hub] at h
  · by_cases hcid : f.checkIDErr
    · simp [uploadCommit, hub, hcid] at h
    · rcases hal : allocMinioID w (minioUserBucket o) cands with _ | minioID
      · simp [uploadCommit, hub, hcid, hal] at h
      · by_cases hsf : f.storeFails
        · simp [uploadCommit, hub, hcid, hal, hsf] at h
        · by_cases haf : f.addFails
          · simp [uploadCommit, hub, hcid, hal, hsf, haf] at h
          · by_cases hif : f.invalidateFails <;>
              simp [uploadCommit, hub, hcid, hal, hsf, haf, hif, suffixAfter,
                isLocatorInsert, isInvalidateZero]

/-- After the fork commit phase records a locator row, a version-0 cache
invalidation for the forked-from database follows in the same trace. -/
theorem forkCommit_insert_invalidate (lu : String) (req : ForkReq) (w : World)
    (f : Faults) (o fo n : String) (v : Nat)
    (h : Event.locatorInsert o fo n v ∈ (forkCommit lu req w f).2.1) :
    ((suffixAfter isLocatorInsert (forkCommit lu req w f).2.1).any
      (isInvalidateZero req.dbOwner "/" req.dbName)) = true := by
  by_cases hb : f.bucketIDErr
  · simp [forkCommit, hb] at h
  · rcases hmb : minioBucketID w req.dbOwner req.dbName req.dbVer lu with e | ⟨sb, si⟩
    · simp [forkCommit, hb, hmb] at h
    · by_cases hub : f.userBucketErr
      · simp [forkCommit, hb, hmb, hub] at h
      · by_cases hcf : f.copyFails
        · simp [forkCommit, hb, hmb, hub, hcf] at h
        · by_cases hfd : f.forkDBErr
          · simp [forkCommit, hb, hmb, hub, hcf, hfd] at h
          · by_cases hif : f.invalidateFails <;>
              simp [forkCommit, hb, hmb, hub, hcf, hfd, hif, suffixAfter,
                isLocatorInsert, isInvalidateZero]

/-- C6: after every successful mutation — an upload's locator insert, a
fork's locator insert, or a star toggle — the handler synchronously invokes
cache invalidation with the version-0 wildcard, later in the same request's
trace, for the database the mutation concerns (the uploader's database at src
line 1568, the forked-from database at src line 556, the starred database at
src line 994). -/
theorem mutation_invalidates_cache_version_zero :
    (∀ (req : UploadReq) (w : World) (f : Faults) (o fo n : String) (v : Nat),
      Event.locatorInsert o fo n v ∈ (uploadDataHandler req w f).2.1 →
      ((suffixAfter isLocatorInsert (uploadDataHandler req w f).2.1).any
        (isInvalidateZero o fo n)) = true) ∧
    (∀ (req : ForkReq) (w : World) (f : Faults) (o fo n : String) (v : Nat),
      Event.locatorInsert o fo n v ∈ (forkDBHandler req w f).2.1 →
      ((suffixAfter isLocatorInsert (forkDBHandler req w f).2.1).any
        (isInvalidateZero req.dbOwner "/" req.dbName)) = true) ∧
    (∀ (req : StarReq) (w : World) (f : Faults) (u o fo n : String),
      Event.starToggled u o fo n ∈ (starToggleHandler req w f).2.1 →
      ((suffixAfter isStarToggled (starToggleHandler req w f).2.1).any
        (isInvalidateZero o fo n)) = true) := by
  refine ⟨?_, ?_, ?_⟩
  · intro req w f o fo n v h
    rcases hval : uploadValidate req f with o1 | ⟨lu, pub, dbName⟩
    · simp [uploadDataHandler, hval] at h
    · simp only [uploadDataHandler, hval] at h ⊢
      exact uploadCommit_insert_invalidate lu pub dbName req.idCandidates w f o fo n v h
  · intro req w f o fo n v h
    rcases hval : forkValidate req w f with ⟨o2, tr2⟩ | lu
    · simp only [forkDBHandler, hval] at h
      exact absurd h (forkValidate_error_no_insert req w f o2 tr2 hval o fo n v)
    · simp only [forkDBHandler, hval] at h ⊢
      exact forkCommit_insert_invalidate lu req w f o fo n v h
  · intro req w f u o fo n h
    rcases hs : req.sessionUser with _ | lu
    · simp [starToggleHandler, hs] at h
    · by_cases ht : f.toggleErr
      · simp [starToggleHandler, hs, ht] at h
      · by_cases hi : f.invalidateFails
        · simp only [starToggleHandler, hs, ht, hi, if_false, if_true, Bool.false_eq_true,
            ite_false, ite_true] at h ⊢
          simp only [List.mem_cons, List.not_mem_nil, Event.starToggled.injEq,
            reduceCtorEq, or_false, false_or, or_self] at h
          obtain ⟨h1, h2, h3, h4⟩ := h
          subst h2; subst h3; subst h4
          simp [suffixAfter, isStarToggled, isInvalidateZero]
        · by_cases hq : f.starsQueryErr
          all_goals
            simp only [starToggleHandler, hs, ht, hi, hq, if_false, if_true,
              Bool.false_eq_true, ite_false, ite_true] at h ⊢
          all_goals
            simp only [List.mem_cons, List.not_mem_nil, Event.starToggled.injEq,
              reduceCtorEq, or_false, false_or, or_self] at h
          all_goals
            obtain ⟨h1, h2, h3, h4⟩ := h
            subst h2; subst h3; subst h4
            simp [suffixAfter, isStarToggled, isInvalidateZero]

/-- Witness for C6: in concrete runs — alice uploading test.db, bob forking
alice's db, bob starring alice's db — the version-0 invalidation follows the
mutation in each trace. -/
theorem mutation_invalidates_cache_version_zero_witness :
    ((suffixAfter isLocatorInsert
        (uploadDataHandler ⟨some "alice", some true, "", "", some ("test.db", 5), ["abcd"]⟩
          emptyWorld noFaults).2.1).any
      (isInvalidateZero "alice" "/" "test.db")) = true ∧
    ((suffixAfter isLocatorInsert
        (forkDBHandler ⟨"alice", "db", 1, some "bob", "xyz"⟩ c9WorldFree noFaults).2.1).any
      (isInvalidateZero "alice" "/" "db")) = true ∧
    ((suffixAfter isStarToggled
        (starToggleHandler ⟨"alice", "db", some "bob"⟩ emptyWorld noFaults).2.1).any
      (isInvalidateZero "alice" "/" "db")) = true :=
  ⟨mutation_invalidates_cache_version_zero.1
      ⟨some "alice", some true, "", "", some ("test.db", 5), ["abcd"]⟩
      emptyWorld noFaults "alice" "/" "test.db" 1 (by decide),
    mutation_invalidates_cache_version_zero.2.1
      ⟨"alice", "db", 1, some "bob", "xyz"⟩ c9WorldFree noFaults "bob" "/" "db" 1 (by decide),
    mutation_invalidates_cache_version_zero.2.2
      ⟨"alice", "db", some "bob"⟩ emptyWorld noFaults "bob" "alice" "/" "db" (by decide)⟩

/-- A table-data request as `tableViewHandler` sees it after URL decoding
(src line 1192) plus the raw sort/offset form values. -/
structure TableReq where
  dbOwner : String
  dbName : String
  requestedTable : String
  dbVersion : Nat
  sortCol : String
  sortDir : String
  offsetStr : String
  sessionUser : Option String
  deriving DecidableEq, Repr

/-- Modelled from the spec: `ValidateFieldName` is validation glue in the
missing `common` package (out of scope per spec §1); modelled as requiring a
nonempty name of alphanumerics and underscores. -/
def validFieldName (s : String) : Bool :=
  !s.isEmpty && s.toList.all fun c => c.isAlphanum || c == '_'

/-- Offset parsing of `tableViewHandler` (src lines 1201-1216): empty means
0, an unparsable value is a client error, a negative value is clamped
to 0. -/
def parseOffset (s : String) : Except Outcome Nat :=
  if s.isEmpty then .ok 0
  else match s.toInt? with
  | none => .error (.errorPage 400 "invalid offset")
  | some i => .ok (if i < 0 then 0 else i.toNat)

/-- The validation prefix of `tableViewHandler` (src lines 1192-1237): offset
parsing, sort-column name validation, sort-direction validation.  On success,
the parsed row offset. -/
def tableValidate (req : TableReq) : Except Outcome Nat :=
  match parseOffset req.offsetStr with
  | .error o => .error o
  | .ok rowOffset =>
    if req.sortCol != "" && !validFieldName req.sortCol then
      .error (.errorPage 400 "Validation failed on requested sort field name")
    else if req.sortDir != "" && req.sortDir != "ASC" && req.sortDir != "DESC" then
      .error (.errorPage 400 "Invalid sort direction")
    else .ok rowOffset

/-- Modelled from the spec: the default row cap for viewers who are not
logged in (src line 1273: "Not logged in, so default to 10 rows"). -/
def defaultNumDisplayRows : Nat := 10

/-- Modelled from the spec: `PrefUserMaxRows` (missing `common` package)
returns the logged-in user's preferred row cap. -/
def prefUserMaxRows (w : World) (u : String) : Nat :=
  match w.prefs.lookup u with
  | some n => n
  | none => defaultNumDisplayRows

/-- Modelled from the spec: `ReadSQLiteDB` (missing `common` package; the SQL
engine is out of scope per §1) — the derived view is identified by the query
parameters that produced it; the total row count is filled in afterwards (src
line 1354). -/
def readSQLiteDB (table sortCol sortDir : String) (maxRows rowOffset : Nat) :
    RecordSet :=
  ⟨table, sortCol, sortDir, maxRows, rowOffset, 0⟩

/-- The cache-miss path of `tableViewHandler` (src lines 1287-1367): open the
blob, list its tables (failure or an empty list aborts silently with only a
log line), reject a requested table that is absent, default to the first
table, drop a sort column that does not exist, read the page, count the rows,
and write the result to the cache — a failed cache write is logged and the
computed rows are still used (src lines 1363-1367). -/
def tableViewMiss (key : CacheKey) (bucket id reqTable sortCol sortDir : String)
    (maxRows rowOffset : Nat) (w : World) (f : Faults) : Outcome × List Event :=
  if f.tablesErr then (.silent, [])
  else match (w.tablesOf.lookup (bucket, id)).getD [] with
  | [] => (.silent, [])
  | t0 :: ts =>
    if reqTable != "" && !((t0 :: ts).contains reqTable) then
      (.errorPage 400 "Requested table does not exist", [])
    else
      let table := if reqTable == "" then t0 else reqTable
      if sortCol != "" && f.columnsErr then
        (.errorPage 500 "Error when reading from the database", [])
      else
        let cols := (w.columnsOf.lookup (bucket, id, table)).getD []
        let sortCol2 := if sortCol != "" && !(cols.contains sortCol) then "" else sortCol
        if f.readErr then (.errorPage 400 "Error reading database table data", [])
        else if f.rowCountErr then (.errorPage 500 "Error counting table rows", [])
        else
          let rs : RecordSet :=
            { readSQLiteDB table sortCol2 sortDir maxRows rowOffset with
              totalRows := (w.rowCounts.lookup (bucket, id, table)).getD 0 }
          if f.cacheSetFails then
            (.json rs, [.cacheSet key, .logged "Error when caching table data"])
          else (.json rs, [.cacheSet key])

/-- The cache-consulting read of `tableViewHandler` (src lines 1266-1368):
compute the viewer's row cap, build the cache key, consult the cache (a cache
get error is logged and treated as a miss), serve the cached record set on a
hit, fall into the miss path otherwise. -/
def tableViewRead (viewer bucket id : String) (req : TableReq) (rowOffset : Nat)
    (w : World) (f : Faults) (cached : Option RecordSet) : Outcome × List Event :=
  let maxRows := if viewer != "" then prefUserMaxRows w viewer else defaultNumDisplayRows
  let key := dataCacheKey req.sortCol req.sortDir rowOffset viewer req.dbOwner
      req.dbName req.dbVersion req.requestedTable maxRows
  if f.cacheGetErr then
    ((tableViewMiss key bucket id req.requestedTable req.sortCol req.sortDir
        maxRows rowOffset w f).1,
      .cacheGet key :: .logged "Error retrieving table data from cache" ::
        (tableViewMiss key bucket id req.requestedTable req.sortCol req.sortDir
          maxRows rowOffset w f).2)
  else match cached with
  | some rs => (.json rs, [.cacheGet key])
  | none =>
    ((tableViewMiss key bucket id req.requestedTable req.sortCol req.sortDir
        maxRows rowOffset w f).1,
      .cacheGet key ::
        (tableViewMiss key bucket id req.requestedTable req.sortCol req.sortDir
          maxRows rowOffset w f).2)

/-- Embedding of `tableViewHandler` (src lines 1188-1379): validation, then
the access-checking `MinioBucketID` resolution (src comment line 1251: "Check
if the user has access to the requested database"), the missing-database
check (line 1259), and only then the cache-consulting read.  The anonymous
viewer is the empty string (src line 1240).  `cached` is what the memcached
service currently holds under this request's key. -/
def tableViewHandler (req : TableReq) (w : World) (f : Faults)
    (cached : Option RecordSet) : Outcome × List Event :=
  match tableValidate req with
  | .error o => (o, [])
  | .ok rowOffset =>
    let viewer := req.sessionUser.getD ""
    if f.bucketIDErr then (.errorPage 500 "database lookup failed", [])
    else match minioBucketID w req.dbOwner req.dbName req.dbVersion viewer with
    | .error _ =>
      (.errorPage 500 "database access check failed",
        [.accessCheck viewer req.dbOwner "/" req.dbName req.dbVersion false])
    | .ok (bucket, id) =>
      if id == "" then
        (.silent, [.accessCheck viewer req.dbOwner "/" req.dbName req.dbVersion true])
      else
        ((tableViewRead viewer bucket id req rowOffset w f cached).1,
          .accessCheck viewer req.dbOwner "/" req.dbName req.dbVersion true ::
            (tableViewRead viewer bucket id req rowOffset w f cached).2)

/-- Trace scan for the authorize-then-cache discipline: walking the trace
while collecting the (viewer, owner, folder, name, version) tuples whose
access check succeeded, every cache get must name an already-authorized
tuple. -/
def guardedFrom (acc : List (String × String × String × String × Nat)) :
    List Event → Bool
  | [] => true
  | .accessCheck v o fo n ver ok :: rest =>
    guardedFrom (if ok then (v, o, fo, n, ver) :: acc else acc) rest
  | .cacheGet k :: rest =>
    acc.contains (k.viewer, k.owner, k.folder, k.dbname, k.version) && guardedFrom acc rest
  | _ :: rest => guardedFrom acc rest

/-- Every cache get in the trace is preceded by a successful access check for
the same viewer and identity. -/
def cacheGetsGuarded (tr : List Event) : Bool := guardedFrom [] tr

/-- The miss path emits no cache get, so it cannot violate the
authorize-then-cache discipline whatever is already authorized. -/
theorem guardedFrom_miss (acc : List (String × String × String × String × Nat))
    (key : CacheKey) (bucket id reqTable sortCol sortDir : String)
    (maxRows rowOffset : Nat) (w : World) (f : Faults) :
    guardedFrom acc
      (tableViewMiss key bucket id reqTable sortCol sortDir maxRows rowOffset w f).2 =
      true := by
  simp only [tableViewMiss]
  repeat' split
  all_goals simp [guardedFrom]

/-- Once the viewer's access to the identity has been authorized, the
cache-consulting read respects the authorize-then-cache discipline: its only
cache get names that authorized tuple. -/
theorem guardedFrom_read (viewer bucket id : String) (req : TableReq)
    (rowOffset : Nat) (w : World) (f : Faults) (cached : Option RecordSet) :
    guardedFrom [(viewer, req.dbOwner, "/", req.dbName, req.dbVersion)]
      (tableViewRead viewer bucket id req rowOffset w f cached).2 = true := by
  simp only [tableViewRead]
  repeat' split
  all_goals
    simp [guardedFrom, dataCacheKey, tableRowsCacheKey, guardedFrom_miss]

/-- C4: on the table-data read path, no cache get ever happens before the
access check for that viewer and identity has succeeded — `MinioBucketID`
(the guard consultation, src lines 1251-1256) precedes the cache lookup (src
lines 1276-1286) in every execution. -/
theorem tableView_access_before_cache (req : TableReq) (w : World) (f : Faults)
    (cached : Option RecordSet) :
    cacheGetsGuarded (tableViewHandler req w f cached).2 = true := by
  simp only [tableViewHandler]
  repeat' split
  all_goals
    simp [cacheGetsGuarded, guardedFrom, guardedFrom_read]

/-- The fault record in which only cache invalidation fails. -/
def invFaults : Faults := { invalidateFails := true }

/-- The fault record in which only the cache write fails. -/
def setFaults : Faults := { cacheSetFails := true }

/-- C7 fails on the code as stated: with only cache invalidation failing,
alice's upload commits its mutation (the locator row is recorded) and the
failure is only logged — but the handler then returns early (src lines
1568-1573), so the success redirect that the fault-free run sends is never
sent: the triggering request does not complete normally. -/
theorem cache_invalidation_failure_drops_response :
    (uploadDataHandler ⟨some "alice", some true, "", "", some ("test.db", 5), ["abcd"]⟩
        emptyWorld invFaults).1 = .silent ∧
      Event.locatorInsert "alice" "/" "test.db" 1 ∈
        (uploadDataHandler ⟨some "alice", some true, "", "", some ("test.db", 5), ["abcd"]⟩
          emptyWorld invFaults).2.1 ∧
      Event.logged "Error when invalidating memcache entries" ∈
        (uploadDataHandler ⟨some "alice", some true, "", "", some ("test.db", 5), ["abcd"]⟩
          emptyWorld invFaults).2.1 ∧
      (uploadDataHandler ⟨some "alice", some true, "", "", some ("test.db", 5), ["abcd"]⟩
        emptyWorld noFaults).1 = .redirect "/alice/test.db" := by
  decide

/-- C7 amended: cache-service failures on the read path never change what the
caller gets — a failed cache write after computing a table view is logged and
the computed view is still returned (the outcome equals the one of the run in
which the write succeeds); and a failed cache invalidation after an upload is
logged and rolls nothing back (the committed locator row and blob survive in
the final world) and renders no error page, but the handler returns early
without sending its success redirect. -/
theorem cache_failures_logged_and_contained :
    (∀ (key : CacheKey) (bucket id reqTable sortCol sortDir : String)
        (maxRows rowOffset : Nat) (w : World) (f : Faults),
      f.cacheSetFails = true →
      (tableViewMiss key bucket id reqTable sortCol sortDir maxRows rowOffset w f).1 =
          (tableViewMiss key bucket id reqTable sortCol sortDir maxRows rowOffset w
            { f with cacheSetFails := false }).1 ∧
        (Event.cacheSet key ∈
            (tableViewMiss key bucket id reqTable sortCol sortDir maxRows rowOffset w f).2 →
          Event.logged "Error when caching table data" ∈
            (tableViewMiss key bucket id reqTable sortCol sortDir maxRows rowOffset w f).2)) ∧
    (∀ (req : UploadReq) (w : World) (f : Faults) (lu : String) (pub : Bool)
        (dbName minioID : String),
      uploadValidate req f = .ok (lu, pub, dbName) →
      f.userBucketErr = false → f.checkIDErr = false →
      allocMinioID w (minioUserBucket lu) req.idCandidates = some minioID →
      f.storeFails = false → f.addFails = false → f.invalidateFails = true →
      (uploadDataHandler req w f).1 = .silent ∧
        Event.logged "Error when invalidating memcache entries" ∈
          (uploadDataHandler req w f).2.1 ∧
        (uploadDataHandler req w f).2.2 =
          addDatabase (storeBlob w (minioUserBucket lu) minioID) lu "/" dbName
            (nextVer w lu dbName) pub (minioUserBucket lu) minioID) := by
  constructor
  · intro key bucket id reqTable sortCol sortDir maxRows rowOffset w f hcs
    simp only [tableViewMiss]
    repeat' split
    all_goals simp_all
  · intro req w f lu pub dbName minioID hval hub hcid hal hsf haf hif
    simp [uploadDataHandler, hval, uploadCommit, hub, hcid, hal, hsf, haf, hif]

/-- The world used by the C7 witness: alice's stored blob holds one table. -/
def c7World : World :=
  { emptyWorld with
    tablesOf := [(("alice.bucket", "src.db"), ["t1"])] }

/-- Witness for C7 (amended): with only the cache write failing, a concrete
miss-path read returns the same view as the fault-free run and logs the
failure; with only invalidation failing, alice's concrete upload is silent,
logged, and its mutation survives in the final world. -/
theorem cache_failures_logged_and_contained_witness :
    ((tableViewMiss (dataCacheKey "" "" 0 "" "alice" "db" 1 "" 10) "alice.bucket" "src.db"
          "" "" "" 10 0 c7World setFaults).1 =
        (tableViewMiss (dataCacheKey "" "" 0 "" "alice" "db" 1 "" 10) "alice.bucket" "src.db"
          "" "" "" 10 0 c7World { setFaults with cacheSetFails := false }).1 ∧
      (Event.cacheSet (dataCacheKey "" "" 0 "" "alice" "db" 1 "" 10) ∈
          (tableViewMiss (dataCacheKey "" "" 0 "" "alice" "db" 1 "" 10) "alice.bucket" "src.db"
            "" "" "" 10 0 c7World setFaults).2 →
        Event.logged "Error when caching table data" ∈
          (tableViewMiss (dataCacheKey "" "" 0 "" "alice" "db" 1 "" 10) "alice.bucket" "src.db"
            "" "" "" 10 0 c7World setFaults).2)) ∧
    ((uploadDataHandler ⟨some "alice", some true, "", "", some ("test.db", 5), ["abcd"]⟩
          emptyWorld invFaults).1 = .silent ∧
      Event.logged "Error when invalidating memcache entries" ∈
        (uploadDataHandler ⟨some "alice", some true, "", "", some ("test.db", 5), ["abcd"]⟩
          emptyWorld invFaults).2.1 ∧
      (uploadDataHandler ⟨some "alice", some true, "", "", some ("test.db", 5), ["abcd"]⟩
          emptyWorld invFaults).2.2 =
        addDatabase (storeBlob emptyWorld (minioUserBucket "alice") "abcd.db") "alice" "/"
          "test.db" (nextVer emptyWorld "alice" "test.db") true (minioUserBucket "alice")
          "abcd.db") :=
  ⟨cache_failures_logged_and_contained.1 (dataCacheKey "" "" 0 "" "alice" "db" 1 "" 10)
      "alice.bucket" "src.db" "" "" "" 10 0 c7World setFaults rfl,
    cache_failures_logged_and_contained.2
      ⟨some "alice", some true, "", "", some ("test.db", 5), ["abcd"]⟩ emptyWorld invFaults
      "alice" true "test.db" "abcd.db" rfl rfl rfl rfl rfl rfl rfl⟩

/-- Decimal decoding of a digit-character list, used to prove `Nat.repr`
injective (the cache-key prefix embeds the row offset via `%d`). -/
def decodeDigits (l : List Char) : Nat :=
  l.foldl (fun a c => 10 * a + (c.toNat - 48)) 0

/-- `Nat.digitChar` decodes back to its digit. -/
theorem digitChar_toNat (d : Nat) (h : d < 10) : (Nat.digitChar d).toNat - 48 = d := by
  interval_cases d <;> rfl

/-- `Nat.toDigitsCore` only ever appends in front of its accumulator. -/
theorem toDigitsCore_shift (fuel : Nat) : ∀ (n : Nat) (ds : List Char),
    Nat.toDigitsCore 10 fuel n ds = Nat.toDigitsCore 10 fuel n [] ++ ds := by
  induction fuel with
  | zero => intro n ds; rfl
  | succ fuel ih =>
    intro n ds
    simp only [Nat.toDigitsCore]
    by_cases h : n / 10 = 0
    · simp [h]
    · simp only [h, if_false]
      rw [ih (n / 10) (Nat.digitChar (n % 10) :: ds),
        ih (n / 10) [Nat.digitChar (n % 10)]]
      simp

/-- `Nat.toDigitsCore` does not depend on its fuel once the fuel exceeds the
number. -/
theorem toDigitsCore_fuel (fuel : Nat) : ∀ (n : Nat) (ds : List Char), n < fuel →
    Nat.toDigitsCore 10 fuel n ds = Nat.toDigitsCore 10 (n + 1) n ds := by
  induction fuel using Nat.strong_induction_on with
  | _ fuel ih =>
    intro n ds hlt
    rcases fuel with _ | g
    · omega
    · simp only [Nat.toDigitsCore]
      by_cases h : n / 10 = 0
      · simp [h]
      · simp only [h, if_false]
        rw [ih g (by omega) (n / 10) (Nat.digitChar (n % 10) :: ds) (by omega),
          ih n (by omega) (n / 10) (Nat.digitChar (n % 10) :: ds) (by omega)]

/-- Appending one digit character multiplies the decoded value by ten and
adds the digit. -/
theorem decodeDigits_append (xs : List Char) (c : Char) :
    decodeDigits (xs ++ [c]) = 10 * decodeDigits xs + (c.toNat - 48) := by
  simp [decodeDigits, List.foldl_append]

/-- Decoding the decimal digits of `n` gives back `n`. -/
theorem decode_toDigits : ∀ n : Nat, decodeDigits (Nat.toDigits 10 n) = n := by
  intro n
  induction n using Nat.strong_induction_on with
  | _ n ih =>
    simp only [Nat.toDigits, Nat.toDigitsCore]
    by_cases h : n / 10 = 0
    · have hn : n < 10 := by omega
      simp [h, decodeDigits, Nat.mod_eq_of_lt hn, digitChar_toNat n hn]
    · rw [if_neg h]
      rw [toDigitsCore_shift n (n / 10) [Nat.digitChar (n % 10)]]
      rw [toDigitsCore_fuel n (n / 10) [] (by omega)]
      have ihq := ih (n / 10) (by omega)
      simp only [Nat.toDigits] at ihq
      rw [decodeDigits_append, ihq, digitChar_toNat (n % 10) (by omega)]
      omega

/-- The decimal representation `Nat.repr` (the model of Go's `%d`) is
injective. -/
theorem natRepr_injective (m n : Nat) (h : Nat.repr m = Nat.repr n) : m = n := by
  have hd : Nat.toDigits 10 m = Nat.toDigits 10 n := congrArg String.data h
  have h2 := congrArg decodeDigits hd
  rwa [decode_toDigits, decode_toDigits] at h2

/-- Cancel a common left factor of a string concatenation. -/
theorem strAppendCancelLeft {a b c : String} (h : a ++ b = a ++ c) : b = c := by
  have hd := congrArg String.data h
  simp only [String.data_append] at hd
  exact String.ext (List.append_cancel_left hd)

/-- Cancel a common right factor of a string concatenation. -/
theorem strAppendCancelRight {a b c : String} (h : a ++ c = b ++ c) : a = b := by
  have hd := congrArg String.data h
  simp only [String.data_append] at hd
  exact String.ext (List.append_cancel_right hd)

/-- C5: the cache-key construction is pure and deterministic, and changing
any single input — viewer, owner, name, version, table, row cap, sort column,
sort direction, row offset (the last three enter through the prefix string
built at src line 1277), or folder — produces a different fingerprint; in
particular keys of different viewers never coincide, so a value cached under
one viewer's key is never returned for another viewer. -/
theorem cache_key_deterministic_and_field_sensitive :
    (∀ (sc sd : String) (off : Nat) (v o n : String) (ver : Nat) (t : String) (mr : Nat),
      dataCacheKey sc sd off v o n ver t mr = dataCacheKey sc sd off v o n ver t mr) ∧
    (∀ sc sd off v1 v2 o n ver t mr, v1 ≠ v2 →
      dataCacheKey sc sd off v1 o n ver t mr ≠ dataCacheKey sc sd off v2 o n ver t mr) ∧
    (∀ sc sd off v o1 o2 n ver t mr, o1 ≠ o2 →
      dataCacheKey sc sd off v o1 n ver t mr ≠ dataCacheKey sc sd off v o2 n ver t mr) ∧
    (∀ sc sd off v o n1 n2 ver t mr, n1 ≠ n2 →
      dataCacheKey sc sd off v o n1 ver t mr ≠ dataCacheKey sc sd off v o n2 ver t mr) ∧
    (∀ sc sd off v o n ver1 ver2 t mr, ver1 ≠ ver2 →
      dataCacheKey sc sd off v o n ver1 t mr ≠ dataCacheKey sc sd off v o n ver2 t mr) ∧
    (∀ sc sd off v o n ver t1 t2 mr, t1 ≠ t2 →
      dataCacheKey sc sd off v o n ver t1 mr ≠ dataCacheKey sc sd off v o n ver t2 mr) ∧
    (∀ sc sd off v o n ver t mr1 mr2, mr1 ≠ mr2 →
      dataCacheKey sc sd off v o n ver t mr1 ≠ dataCacheKey sc sd off v o n ver t mr2) ∧
    (∀ sc1 sc2 sd off v o n ver t mr, sc1 ≠ sc2 →
      dataCacheKey sc1 sd off v o n ver t mr ≠ dataCacheKey sc2 sd off v o n ver t mr) ∧
    (∀ sc sd1 sd2 off v o n ver t mr, sd1 ≠ sd2 →
      dataCacheKey sc sd1 off v o n ver t mr ≠ dataCacheKey sc sd2 off v o n ver t mr) ∧
    (∀ sc sd off1 off2 v o n ver t mr, off1 ≠ off2 →
      dataCacheKey sc sd off1 v o n ver t mr ≠ dataCacheKey sc sd off2 v o n ver t mr) ∧
    (∀ pfx v o fo1 fo2 n ver t mr, fo1 ≠ fo2 →
      tableRowsCacheKey pfx v o fo1 n ver t mr ≠ tableRowsCacheKey pfx v o fo2 n ver t mr) := by
  refine ⟨fun _ _ _ _ _ _ _ _ _ => rfl, ?_, ?_, ?_, ?_, ?_, ?_, ?_, ?_, ?_, ?_⟩
  · intro sc sd off v1 v2 o n ver t mr hne h
    exact hne (congrArg CacheKey.viewer h)
  · intro sc sd off v o1 o2 n ver t mr hne h
    exact hne (congrArg CacheKey.owner h)
  · intro sc sd off v o n1 n2 ver t mr hne h
    exact hne (congrArg CacheKey.dbname h)
  · intro sc sd off v o n ver1 ver2 t mr hne h
    exact hne (congrArg CacheKey.version h)
  · intro sc sd off v o n ver t1 t2 mr hne h
    exact hne (congrArg CacheKey.table h)
  · intro sc sd off v o n ver t mr1 mr2 hne h
    exact hne (congrArg CacheKey.maxRows h)
  · intro sc1 sc2 sd off v o n ver t mr hne h
    have hp := congrArg CacheKey.pfx h
    have h1 := strAppendCancelRight hp
    have h2 := strAppendCancelRight h1
    have h3 := strAppendCancelRight h2
    have h4 := strAppendCancelRight h3
    exact hne (strAppendCancelLeft h4)
  · intro sc sd1 sd2 off v o n ver t mr hne h
    have hp := congrArg CacheKey.pfx h
    have h1 := strAppendCancelRight hp
    have h2 := strAppendCancelRight h1
    exact hne (strAppendCancelLeft h2)
  · intro sc sd off1 off2 v o n ver t mr hne h
    have hp := congrArg CacheKey.pfx h
    exact hne (natRepr_injective off1 off2 (strAppendCancelLeft hp))
  · intro pfx v o fo1 fo2 n ver t mr hne h
    exact hne (congrArg CacheKey.folder h)

/-- Witness for C5 at concrete inputs: changing only the viewer, and changing
only the row offset, each yield a different fingerprint. -/
theorem cache_key_deterministic_and_field_sensitive_witness :
    dataCacheKey "" "" 0 "alice" "o" "db" 3 "t" 10 ≠
        dataCacheKey "" "" 0 "bob" "o" "db" 3 "t" 10 ∧
      dataCacheKey "c" "ASC" 5 "v" "o" "db" 3 "t" 10 ≠
        dataCacheKey "c" "ASC" 7 "v" "o" "db" 3 "t" 10 :=
  ⟨cache_key_deterministic_and_field_sensitive.2.1 "" "" 0 "alice" "bob" "o" "db" 3 "t" 10
      (by decide),
    cache_key_deterministic_and_field_sensitive.2.2.2.2.2.2.2.2.2.1 "c" "ASC" 5 7 "v" "o"
      "db" 3 "t" 10 (by decide)⟩

end DBHub
